import Mathlib

/-!
LoongArch `VM_Version`: CPUCFG records and the feature bitmask

A shallow embedding of `src/hotspot/cpu/loongarch/vm_version_loongarch.hpp`:
the twelve `LoongArch_Cpucfg_Id*` unions (a `uint32_t value` overlaid with a
bit-field struct `bits`), the `CPU_FEATURE_FLAGS` table and the `Feature_Flag`
enumeration generated from it, the `CpuidInfo` block with its offset accessors,
and the inline feature queries of `VM_Version`.

Machine integers are natural numbers; a 32-bit word is a `Nat` below `2 ^ 32`.
-/

namespace VM_Version

/-! ## Bit-field structs -/

/-- One member of a bit-field struct, `NAME : width`; an unnamed padding member
(`: width`) has no name. -/
structure BitField where
  name : Option String
  width : Nat
  deriving DecidableEq, Repr

/-- Reading of a bit-field struct overlaid on a word: members are allocated in
declaration order starting at the least significant bit, so each member takes the
low `width` bits of what the members before it have left over. -/
def extract : List BitField → Nat → List (Option String × Nat)
  | [], _ => []
  | f :: fs, w => (f.name, w % 2 ^ f.width) :: extract fs (w / 2 ^ f.width)

/-- The named members of a bit-field struct together with their values; padding
members cannot be read and are left out. -/
def decode (layout : List BitField) (w : Nat) : List (String × Nat) :=
  (extract layout w).filterMap fun p => p.1.map fun n => (n, p.2)

/-- Member access `u.bits.NAME` on a union whose `value` is `w`. -/
def readField (layout : List BitField) (name : String) (w : Nat) : Nat :=
  ((decode layout w).lookup name).getD 0

/-! ## The CPUCFG unions -/

structure LoongArch_Cpucfg_Id0 where
  value : Nat
  deriving DecidableEq, Repr

structure LoongArch_Cpucfg_Id1 where
  value : Nat
  deriving DecidableEq, Repr

structure LoongArch_Cpucfg_Id2 where
  value : Nat
  deriving DecidableEq, Repr

structure LoongArch_Cpucfg_Id3 where
  value : Nat
  deriving DecidableEq, Repr

structure LoongArch_Cpucfg_Id4 where
  value : Nat
  deriving DecidableEq, Repr

structure LoongArch_Cpucfg_Id5 where
  value : Nat
  deriving DecidableEq, Repr

structure LoongArch_Cpucfg_Id6 where
  value : Nat
  deriving DecidableEq, Repr

structure LoongArch_Cpucfg_Id10 where
  value : Nat
  deriving DecidableEq, Repr

structure LoongArch_Cpucfg_Id11 where
  value : Nat
  deriving DecidableEq, Repr

structure LoongArch_Cpucfg_Id12 where
  value : Nat
  deriving DecidableEq, Repr

structure LoongArch_Cpucfg_Id13 where
  value : Nat
  deriving DecidableEq, Repr

structure LoongArch_Cpucfg_Id14 where
  value : Nat
  deriving DecidableEq, Repr

def LoongArch_Cpucfg_Id0.bits : List BitField :=
  [⟨some "PRID", 32⟩]

def LoongArch_Cpucfg_Id1.bits : List BitField :=
  [⟨some "ARCH", 2⟩, ⟨some "PGMMU", 1⟩, ⟨some "IOCSR", 1⟩, ⟨some "PALEN", 8⟩,
   ⟨some "VALEN", 8⟩, ⟨some "UAL", 1⟩, ⟨some "RI", 1⟩, ⟨some "EP", 1⟩,
   ⟨some "RPLV", 1⟩, ⟨some "HP", 1⟩, ⟨some "IOCSR_BRD", 1⟩, ⟨some "MSG_INT", 1⟩,
   ⟨none, 5⟩]

def LoongArch_Cpucfg_Id2.bits : List BitField :=
  [⟨some "FP_CFG", 1⟩, ⟨some "FP_SP", 1⟩, ⟨some "FP_DP", 1⟩, ⟨some "FP_VER", 3⟩,
   ⟨some "LSX", 1⟩, ⟨some "LASX", 1⟩, ⟨some "COMPLEX", 1⟩, ⟨some "CRYPTO", 1⟩,
   ⟨some "LVZ", 1⟩, ⟨some "LVZ_VER", 3⟩, ⟨some "LLFTP", 1⟩, ⟨some "LLFTP_VER", 3⟩,
   ⟨some "LBT_X86", 1⟩, ⟨some "LBT_ARM", 1⟩, ⟨some "LBT_MIPS", 1⟩, ⟨some "LSPW", 1⟩,
   ⟨some "LAM", 1⟩, ⟨none, 9⟩]

def LoongArch_Cpucfg_Id3.bits : List BitField :=
  [⟨some "CCDMA", 1⟩, ⟨some "SFB", 1⟩, ⟨some "UCACC", 1⟩, ⟨some "LLEXC", 1⟩,
   ⟨some "SCDLY", 1⟩, ⟨some "LLDBAR", 1⟩, ⟨some "ITLBHMC", 1⟩, ⟨some "ICHMC", 1⟩,
   ⟨some "SPW_LVL", 3⟩, ⟨some "SPW_HP_HF", 1⟩, ⟨some "RVA", 1⟩, ⟨some "RVAMAXM1", 4⟩,
   ⟨none, 15⟩]

def LoongArch_Cpucfg_Id4.bits : List BitField :=
  [⟨some "CC_FREQ", 32⟩]

def LoongArch_Cpucfg_Id5.bits : List BitField :=
  [⟨some "CC_MUL", 16⟩, ⟨some "CC_DIV", 16⟩]

def LoongArch_Cpucfg_Id6.bits : List BitField :=
  [⟨some "PMP", 1⟩, ⟨some "PMVER", 3⟩, ⟨some "PMNUM", 4⟩, ⟨some "PMBITS", 6⟩,
   ⟨some "UPM", 1⟩, ⟨none, 17⟩]

def LoongArch_Cpucfg_Id10.bits : List BitField :=
  [⟨some "L1IU_PRESENT", 1⟩, ⟨some "L1IU_UNIFY", 1⟩, ⟨some "L1D_PRESENT", 1⟩,
   ⟨some "L2IU_PRESENT", 1⟩, ⟨some "L2IU_UNIFY", 1⟩, ⟨some "L2IU_PRIVATE", 1⟩,
   ⟨some "L2IU_INCLUSIVE", 1⟩, ⟨some "L2D_PRESENT", 1⟩, ⟨some "L2D_PRIVATE", 1⟩,
   ⟨some "L2D_INCLUSIVE", 1⟩, ⟨some "L3IU_PRESENT", 1⟩, ⟨some "L3IU_UNIFY", 1⟩,
   ⟨some "L3IU_PRIVATE", 1⟩, ⟨some "L3IU_INCLUSIVE", 1⟩, ⟨some "L3D_PRESENT", 1⟩,
   ⟨some "L3D_PRIVATE", 1⟩, ⟨some "L3D_INCLUSIVE", 1⟩, ⟨none, 15⟩]

def LoongArch_Cpucfg_Id11.bits : List BitField :=
  [⟨some "WAYM1", 16⟩, ⟨some "INDEXMLOG2", 8⟩, ⟨some "LINESIZELOG2", 7⟩, ⟨none, 1⟩]

def LoongArch_Cpucfg_Id12.bits : List BitField :=
  [⟨some "WAYM1", 16⟩, ⟨some "INDEXMLOG2", 8⟩, ⟨some "LINESIZELOG2", 7⟩, ⟨none, 1⟩]

def LoongArch_Cpucfg_Id13.bits : List BitField :=
  [⟨some "WAYM1", 16⟩, ⟨some "INDEXMLOG2", 8⟩, ⟨some "LINESIZELOG2", 7⟩, ⟨none, 1⟩]

def LoongArch_Cpucfg_Id14.bits : List BitField :=
  [⟨some "WAYM1", 16⟩, ⟨some "INDEXMLOG2", 8⟩, ⟨some "LINESIZELOG2", 7⟩, ⟨none, 1⟩]

/-- Index of a configuration word that has a record in `CpuidInfo`. -/
inductive Cpucfg where
  | Id0 | Id1 | Id2 | Id3 | Id4 | Id5 | Id6 | Id10 | Id11 | Id12 | Id13 | Id14
  deriving DecidableEq, Repr

/-- The bit-field struct of the union declared for a configuration word. -/
def Cpucfg.bits : Cpucfg → List BitField
  | .Id0 => LoongArch_Cpucfg_Id0.bits
  | .Id1 => LoongArch_Cpucfg_Id1.bits
  | .Id2 => LoongArch_Cpucfg_Id2.bits
  | .Id3 => LoongArch_Cpucfg_Id3.bits
  | .Id4 => LoongArch_Cpucfg_Id4.bits
  | .Id5 => LoongArch_Cpucfg_Id5.bits
  | .Id6 => LoongArch_Cpucfg_Id6.bits
  | .Id10 => LoongArch_Cpucfg_Id10.bits
  | .Id11 => LoongArch_Cpucfg_Id11.bits
  | .Id12 => LoongArch_Cpucfg_Id12.bits
  | .Id13 => LoongArch_Cpucfg_Id13.bits
  | .Id14 => LoongArch_Cpucfg_Id14.bits

/-- Access `bits.UAL` of a `LoongArch_Cpucfg_Id1`. -/
def LoongArch_Cpucfg_Id1.UAL (u : LoongArch_Cpucfg_Id1) : Nat :=
  readField LoongArch_Cpucfg_Id1.bits "UAL" u.value

/-- Access `bits.PGMMU` of a `LoongArch_Cpucfg_Id1`. -/
def LoongArch_Cpucfg_Id1.PGMMU (u : LoongArch_Cpucfg_Id1) : Nat :=
  readField LoongArch_Cpucfg_Id1.bits "PGMMU" u.value

/-- Access `bits.LSX` of a `LoongArch_Cpucfg_Id2`. -/
def LoongArch_Cpucfg_Id2.LSX (u : LoongArch_Cpucfg_Id2) : Nat :=
  readField LoongArch_Cpucfg_Id2.bits "LSX" u.value

/-- Access `bits.LASX` of a `LoongArch_Cpucfg_Id2`. -/
def LoongArch_Cpucfg_Id2.LASX (u : LoongArch_Cpucfg_Id2) : Nat :=
  readField LoongArch_Cpucfg_Id2.bits "LASX" u.value

/-- Access `bits.COMPLEX` of a `LoongArch_Cpucfg_Id2`. -/
def LoongArch_Cpucfg_Id2.COMPLEX (u : LoongArch_Cpucfg_Id2) : Nat :=
  readField LoongArch_Cpucfg_Id2.bits "COMPLEX" u.value

/-- Access `bits.CRYPTO` of a `LoongArch_Cpucfg_Id2`. -/
def LoongArch_Cpucfg_Id2.CRYPTO (u : LoongArch_Cpucfg_Id2) : Nat :=
  readField LoongArch_Cpucfg_Id2.bits "CRYPTO" u.value

/-- Access `bits.LBT_X86` of a `LoongArch_Cpucfg_Id2`. -/
def LoongArch_Cpucfg_Id2.LBT_X86 (u : LoongArch_Cpucfg_Id2) : Nat :=
  readField LoongArch_Cpucfg_Id2.bits "LBT_X86" u.value

/-- Access `bits.LBT_ARM` of a `LoongArch_Cpucfg_Id2`. -/
def LoongArch_Cpucfg_Id2.LBT_ARM (u : LoongArch_Cpucfg_Id2) : Nat :=
  readField LoongArch_Cpucfg_Id2.bits "LBT_ARM" u.value

/-- Access `bits.LBT_MIPS` of a `LoongArch_Cpucfg_Id2`. -/
def LoongArch_Cpucfg_Id2.LBT_MIPS (u : LoongArch_Cpucfg_Id2) : Nat :=
  readField LoongArch_Cpucfg_Id2.bits "LBT_MIPS" u.value

/-- Access `bits.LAM` of a `LoongArch_Cpucfg_Id2`. -/
def LoongArch_Cpucfg_Id2.LAM (u : LoongArch_Cpucfg_Id2) : Nat :=
  readField LoongArch_Cpucfg_Id2.bits "LAM" u.value

/-- Access `bits.CCDMA` of a `LoongArch_Cpucfg_Id3`. -/
def LoongArch_Cpucfg_Id3.CCDMA (u : LoongArch_Cpucfg_Id3) : Nat :=
  readField LoongArch_Cpucfg_Id3.bits "CCDMA" u.value

/-- Access `bits.LLEXC` of a `LoongArch_Cpucfg_Id3`. -/
def LoongArch_Cpucfg_Id3.LLEXC (u : LoongArch_Cpucfg_Id3) : Nat :=
  readField LoongArch_Cpucfg_Id3.bits "LLEXC" u.value

/-- Access `bits.SCDLY` of a `LoongArch_Cpucfg_Id3`. -/
def LoongArch_Cpucfg_Id3.SCDLY (u : LoongArch_Cpucfg_Id3) : Nat :=
  readField LoongArch_Cpucfg_Id3.bits "SCDLY" u.value

/-- Access `bits.LLDBAR` of a `LoongArch_Cpucfg_Id3`. -/
def LoongArch_Cpucfg_Id3.LLDBAR (u : LoongArch_Cpucfg_Id3) : Nat :=
  readField LoongArch_Cpucfg_Id3.bits "LLDBAR" u.value

/-! ## The decoding contract of the specification -/

/-- Bit offset of the `i`-th declared member: the widths of the members declared
before it, named and padding alike, added up. -/
def fieldOffset (layout : List BitField) (i : Nat) : Nat :=
  ((layout.take i).map BitField.width).sum

/-- Decoding as the specification words it: each member is
`(word >> offset) & ((1 << width) - 1)`. -/
def specExtract (layout : List BitField) (w : Nat) : List (Option String × Nat) :=
  layout.mapIdx fun i f => (f.name, (w >>> fieldOffset layout i) &&& ((1 <<< f.width) - 1))

/-- The named members of `specExtract`. -/
def specDecode (layout : List BitField) (w : Nat) : List (String × Nat) :=
  (specExtract layout w).filterMap fun p => p.1.map fun n => (n, p.2)

/-- Bit offset of the member called `name`, when the struct has one. -/
def offsetOf (layout : List BitField) (name : String) : Option Nat :=
  (layout.findIdx? fun f => f.name == some name).map (fieldOffset layout)

/-- Re-encoding of a record (spec, testable properties): the OR of `field << offset`
over the named members, taken in declaration order; padding members only advance
the offset. -/
def encodeFrom (off : Nat) : List BitField → List (String × Nat) → Nat
  | [], _ => 0
  | ⟨none, k⟩ :: fs, r => encodeFrom (off + k) fs r
  | ⟨some _, _⟩ :: _, [] => 0
  | ⟨some _, k⟩ :: fs, p :: r => (p.2 <<< off) ||| encodeFrom (off + k) fs r

/-- Re-encoding of a decoded record into a word. -/
def encode (layout : List BitField) (r : List (String × Nat)) : Nat :=
  encodeFrom 0 layout r

/-- The bits covered by named members: the OR of `((1 << width) - 1) << offset`
over the named members. -/
def maskFrom (off : Nat) : List BitField → Nat
  | [] => 0
  | ⟨none, k⟩ :: fs => maskFrom (off + k) fs
  | ⟨some _, k⟩ :: fs => (((1 <<< k) - 1) <<< off) ||| maskFrom (off + k) fs

/-- The declared (non-reserved) bits of a bit-field struct. -/
def declaredMask (layout : List BitField) : Nat :=
  maskFrom 0 layout

/-! ## Feature flags -/

/-- The enumerators of `enum Feature_Flag`, one per row of `CPU_FEATURE_FLAGS`. -/
inductive Feature_Flag where
  | CPU_LAM | CPU_UAL | CPU_LSX | CPU_LASX | CPU_COMPLEX | CPU_CRYPTO
  | CPU_LBT_X86 | CPU_LBT_ARM | CPU_LBT_MIPS
  | CPU_LA32 | CPU_LA64 | CPU_FP | CPU_LLEXC | CPU_SCDLY | CPU_LLDBAR | CPU_CCDMA
  | CPU_LLSYNC | CPU_TGTSYNC | CPU_ULSYNC
  deriving DecidableEq, Repr

/-- Second column of `CPU_FEATURE_FLAGS`: the lower-case name of the flag. -/
def Feature_Flag.name : Feature_Flag → String
  | .CPU_LAM => "lam"
  | .CPU_UAL => "ual"
  | .CPU_LSX => "lsx"
  | .CPU_LASX => "lasx"
  | .CPU_COMPLEX => "complex"
  | .CPU_CRYPTO => "crypto"
  | .CPU_LBT_X86 => "lbt_x86"
  | .CPU_LBT_ARM => "lbt_arm"
  | .CPU_LBT_MIPS => "lbt_mips"
  | .CPU_LA32 => "la32"
  | .CPU_LA64 => "la64"
  | .CPU_FP => "fp"
  | .CPU_LLEXC => "llexc"
  | .CPU_SCDLY => "scdly"
  | .CPU_LLDBAR => "lldbar"
  | .CPU_CCDMA => "ccdma"
  | .CPU_LLSYNC => "llsync"
  | .CPU_TGTSYNC => "tgtsync"
  | .CPU_ULSYNC => "ulsync"

/-- Third column of `CPU_FEATURE_FLAGS`: the bit number of the flag. -/
def Feature_Flag.bit : Feature_Flag → Nat
  | .CPU_LAM => 1
  | .CPU_UAL => 2
  | .CPU_LSX => 4
  | .CPU_LASX => 5
  | .CPU_COMPLEX => 7
  | .CPU_CRYPTO => 8
  | .CPU_LBT_X86 => 10
  | .CPU_LBT_ARM => 11
  | .CPU_LBT_MIPS => 12
  | .CPU_LA32 => 13
  | .CPU_LA64 => 14
  | .CPU_FP => 15
  | .CPU_LLEXC => 16
  | .CPU_SCDLY => 17
  | .CPU_LLDBAR => 18
  | .CPU_CCDMA => 19
  | .CPU_LLSYNC => 20
  | .CPU_TGTSYNC => 21
  | .CPU_ULSYNC => 22

/-- Value of an enumerator, `DECLARE_CPU_FEATURE_FLAG`: `CPU_##id = (1 << bit)`. -/
def Feature_Flag.toNat (f : Feature_Flag) : Nat :=
  1 <<< f.bit

/-- Rows of `CPU_FEATURE_FLAGS` above the comment
`flags above must follow Linux HWCAP`, in declaration order. -/
def CPU_FEATURE_FLAGS_HWCAP : List Feature_Flag :=
  [.CPU_LAM, .CPU_UAL, .CPU_LSX, .CPU_LASX, .CPU_COMPLEX, .CPU_CRYPTO,
   .CPU_LBT_X86, .CPU_LBT_ARM, .CPU_LBT_MIPS]

/-- Rows of `CPU_FEATURE_FLAGS` below that comment, in declaration order. -/
def CPU_FEATURE_FLAGS_REST : List Feature_Flag :=
  [.CPU_LA32, .CPU_LA64, .CPU_FP, .CPU_LLEXC, .CPU_SCDLY, .CPU_LLDBAR, .CPU_CCDMA,
   .CPU_LLSYNC, .CPU_TGTSYNC, .CPU_ULSYNC]

/-- All rows of `CPU_FEATURE_FLAGS`, in declaration order. -/
def CPU_FEATURE_FLAGS : List Feature_Flag :=
  CPU_FEATURE_FLAGS_HWCAP ++ CPU_FEATURE_FLAGS_REST

def CPU_LAM : Nat := Feature_Flag.CPU_LAM.toNat
def CPU_UAL : Nat := Feature_Flag.CPU_UAL.toNat
def CPU_LSX : Nat := Feature_Flag.CPU_LSX.toNat
def CPU_LASX : Nat := Feature_Flag.CPU_LASX.toNat
def CPU_COMPLEX : Nat := Feature_Flag.CPU_COMPLEX.toNat
def CPU_CRYPTO : Nat := Feature_Flag.CPU_CRYPTO.toNat
def CPU_LBT_X86 : Nat := Feature_Flag.CPU_LBT_X86.toNat
def CPU_LBT_ARM : Nat := Feature_Flag.CPU_LBT_ARM.toNat
def CPU_LBT_MIPS : Nat := Feature_Flag.CPU_LBT_MIPS.toNat
def CPU_LA32 : Nat := Feature_Flag.CPU_LA32.toNat
def CPU_LA64 : Nat := Feature_Flag.CPU_LA64.toNat
def CPU_FP : Nat := Feature_Flag.CPU_FP.toNat
def CPU_LLEXC : Nat := Feature_Flag.CPU_LLEXC.toNat
def CPU_SCDLY : Nat := Feature_Flag.CPU_SCDLY.toNat
def CPU_LLDBAR : Nat := Feature_Flag.CPU_LLDBAR.toNat
def CPU_CCDMA : Nat := Feature_Flag.CPU_CCDMA.toNat
def CPU_LLSYNC : Nat := Feature_Flag.CPU_LLSYNC.toNat
def CPU_TGTSYNC : Nat := Feature_Flag.CPU_TGTSYNC.toNat
def CPU_ULSYNC : Nat := Feature_Flag.CPU_ULSYNC.toNat

/-! ## The cpuid info block -/

/-- The block `struct CpuidInfo`: one union per configuration word. -/
structure CpuidInfo where
  cpucfg_info_id0 : LoongArch_Cpucfg_Id0
  cpucfg_info_id1 : LoongArch_Cpucfg_Id1
  cpucfg_info_id2 : LoongArch_Cpucfg_Id2
  cpucfg_info_id3 : LoongArch_Cpucfg_Id3
  cpucfg_info_id4 : LoongArch_Cpucfg_Id4
  cpucfg_info_id5 : LoongArch_Cpucfg_Id5
  cpucfg_info_id6 : LoongArch_Cpucfg_Id6
  cpucfg_info_id10 : LoongArch_Cpucfg_Id10
  cpucfg_info_id11 : LoongArch_Cpucfg_Id11
  cpucfg_info_id12 : LoongArch_Cpucfg_Id12
  cpucfg_info_id13 : LoongArch_Cpucfg_Id13
  cpucfg_info_id14 : LoongArch_Cpucfg_Id14
  deriving DecidableEq, Repr

/-- Members of `struct CpuidInfo` in declaration order, each with the union that is
its type. -/
def CpuidInfo.members : List (String × Cpucfg) :=
  [("cpucfg_info_id0", .Id0), ("cpucfg_info_id1", .Id1), ("cpucfg_info_id2", .Id2),
   ("cpucfg_info_id3", .Id3), ("cpucfg_info_id4", .Id4), ("cpucfg_info_id5", .Id5),
   ("cpucfg_info_id6", .Id6), ("cpucfg_info_id10", .Id10), ("cpucfg_info_id11", .Id11),
   ("cpucfg_info_id12", .Id12), ("cpucfg_info_id13", .Id13), ("cpucfg_info_id14", .Id14)]

/-- Size in bytes of a union of a `uint32_t value` and a struct of `uint32_t`
bit-fields: the larger of the two members, the bit-fields being packed into as many
32-bit units as their widths need. -/
def Cpucfg.sizeof (id : Cpucfg) : Nat :=
  max 4 (4 * (((id.bits.map BitField.width).sum + 31) / 32))

/-- Modelled from the spec: the macro `byte_offset_of` (utilities/sizes.hpp) is not
among the sources. The spec has `recordOffset` return the byte offset of a named
record within the storage layout, contiguous and determined by the declared record
ordering: a member starts where the members declared before it end. -/
def byte_offset_of (members : List (String × Cpucfg)) (member : String) : Nat :=
  (((members.takeWhile fun m => m.1 != member).map fun m => m.2.sizeof).sum)

def Loongson_Cpucfg_id0_offset : Nat := byte_offset_of CpuidInfo.members "cpucfg_info_id0"
def Loongson_Cpucfg_id1_offset : Nat := byte_offset_of CpuidInfo.members "cpucfg_info_id1"
def Loongson_Cpucfg_id2_offset : Nat := byte_offset_of CpuidInfo.members "cpucfg_info_id2"
def Loongson_Cpucfg_id3_offset : Nat := byte_offset_of CpuidInfo.members "cpucfg_info_id3"
def Loongson_Cpucfg_id4_offset : Nat := byte_offset_of CpuidInfo.members "cpucfg_info_id4"
def Loongson_Cpucfg_id5_offset : Nat := byte_offset_of CpuidInfo.members "cpucfg_info_id5"
def Loongson_Cpucfg_id6_offset : Nat := byte_offset_of CpuidInfo.members "cpucfg_info_id6"
def Loongson_Cpucfg_id10_offset : Nat := byte_offset_of CpuidInfo.members "cpucfg_info_id10"
def Loongson_Cpucfg_id11_offset : Nat := byte_offset_of CpuidInfo.members "cpucfg_info_id11"
def Loongson_Cpucfg_id12_offset : Nat := byte_offset_of CpuidInfo.members "cpucfg_info_id12"
def Loongson_Cpucfg_id13_offset : Nat := byte_offset_of CpuidInfo.members "cpucfg_info_id13"
def Loongson_Cpucfg_id14_offset : Nat := byte_offset_of CpuidInfo.members "cpucfg_info_id14"

/-- The offset accessors in the order in which `CpuidInfo` declares the records. -/
def Loongson_Cpucfg_offsets : List Nat :=
  [Loongson_Cpucfg_id0_offset, Loongson_Cpucfg_id1_offset, Loongson_Cpucfg_id2_offset,
   Loongson_Cpucfg_id3_offset, Loongson_Cpucfg_id4_offset, Loongson_Cpucfg_id5_offset,
   Loongson_Cpucfg_id6_offset, Loongson_Cpucfg_id10_offset, Loongson_Cpucfg_id11_offset,
   Loongson_Cpucfg_id12_offset, Loongson_Cpucfg_id13_offset, Loongson_Cpucfg_id14_offset]

end VM_Version

/-! ## The static state of `VM_Version` and its inline queries -/

/-- The static data members that the header reads and writes: `_features`
(a `uint64_t` inherited from `Abstract_VM_Version`), `_cpu_info_is_initialized`
and the `_cpuid_info` block. -/
structure VM_Version where
  _features : Nat
  _cpu_info_is_initialized : Bool
  _cpuid_info : VM_Version.CpuidInfo
  deriving DecidableEq, Repr

namespace VM_Version

def clean_cpuFeatures (s : VM_Version) : VM_Version :=
  { s with _features := 0 }

def cpu_info_is_initialized (s : VM_Version) : Bool :=
  s._cpu_info_is_initialized

def is_la32 (s : VM_Version) : Bool := s._features &&& CPU_LA32 != 0
def is_la64 (s : VM_Version) : Bool := s._features &&& CPU_LA64 != 0
def supports_crypto (s : VM_Version) : Bool := s._features &&& CPU_CRYPTO != 0
def supports_lsx (s : VM_Version) : Bool := s._features &&& CPU_LSX != 0
def supports_lasx (s : VM_Version) : Bool := s._features &&& CPU_LASX != 0
def supports_lam (s : VM_Version) : Bool := s._features &&& CPU_LAM != 0
def supports_llexc (s : VM_Version) : Bool := s._features &&& CPU_LLEXC != 0
def supports_scdly (s : VM_Version) : Bool := s._features &&& CPU_SCDLY != 0
def supports_lldbar (s : VM_Version) : Bool := s._features &&& CPU_LLDBAR != 0
def supports_ual (s : VM_Version) : Bool := s._features &&& CPU_UAL != 0
def supports_lbt_x86 (s : VM_Version) : Bool := s._features &&& CPU_LBT_X86 != 0
def supports_lbt_arm (s : VM_Version) : Bool := s._features &&& CPU_LBT_ARM != 0
def supports_lbt_mips (s : VM_Version) : Bool := s._features &&& CPU_LBT_MIPS != 0
def needs_llsync (s : VM_Version) : Bool := !supports_lldbar s
def needs_tgtsync (_s : VM_Version) : Bool := (1 : Nat) != 0
def needs_ulsync (_s : VM_Version) : Bool := (1 : Nat) != 0

/-- A `CpuidInfo` block whose twelve records are all zero, as static storage is
before anything is written to it. -/
def CpuidInfo.zero : CpuidInfo :=
  ⟨⟨0⟩, ⟨0⟩, ⟨0⟩, ⟨0⟩, ⟨0⟩, ⟨0⟩, ⟨0⟩, ⟨0⟩, ⟨0⟩, ⟨0⟩, ⟨0⟩, ⟨0⟩⟩

/-! ## Initialization -/

/-- Number of the configuration word of a record, the argument of the register
read. -/
def Cpucfg.index : Cpucfg → Nat
  | .Id0 => 0
  | .Id1 => 1
  | .Id2 => 2
  | .Id3 => 3
  | .Id4 => 4
  | .Id5 => 5
  | .Id6 => 6
  | .Id10 => 10
  | .Id11 => 11
  | .Id12 => 12
  | .Id13 => 13
  | .Id14 => 14

/-- The `value` of the record that `CpuidInfo` holds for a configuration word. -/
def CpuidInfo.value (info : CpuidInfo) : Cpucfg → Nat
  | .Id0 => info.cpucfg_info_id0.value
  | .Id1 => info.cpucfg_info_id1.value
  | .Id2 => info.cpucfg_info_id2.value
  | .Id3 => info.cpucfg_info_id3.value
  | .Id4 => info.cpucfg_info_id4.value
  | .Id5 => info.cpucfg_info_id5.value
  | .Id6 => info.cpucfg_info_id6.value
  | .Id10 => info.cpucfg_info_id10.value
  | .Id11 => info.cpucfg_info_id11.value
  | .Id12 => info.cpucfg_info_id12.value
  | .Id13 => info.cpucfg_info_id13.value
  | .Id14 => info.cpucfg_info_id14.value

/-- Modelled from the spec: the table behind `get_feature_flags_by_cpucfg()`, whose
body is not among the sources. The spec derives the bitmask "using an explicit table
mapping record-field → bitmask-bit" and its example wires the `UAL` member of the
architecture-attributes record to the `UAL` flag; the table pairs every flag with
the record member of the same name. -/
def featureTable : List (Cpucfg × String × Feature_Flag) :=
  [(.Id1, "UAL", .CPU_UAL),
   (.Id2, "LSX", .CPU_LSX), (.Id2, "LASX", .CPU_LASX), (.Id2, "COMPLEX", .CPU_COMPLEX),
   (.Id2, "CRYPTO", .CPU_CRYPTO), (.Id2, "LBT_X86", .CPU_LBT_X86),
   (.Id2, "LBT_ARM", .CPU_LBT_ARM), (.Id2, "LBT_MIPS", .CPU_LBT_MIPS),
   (.Id2, "LAM", .CPU_LAM),
   (.Id3, "LLEXC", .CPU_LLEXC), (.Id3, "SCDLY", .CPU_SCDLY), (.Id3, "LLDBAR", .CPU_LLDBAR),
   (.Id3, "CCDMA", .CPU_CCDMA)]

/-- Modelled from the spec: `get_feature_flags_by_cpucfg()` is declared in the header
and defined in a file that is not among the sources. Spec 4.2: "each relevant bit of
a record becomes a fixed-position bit in the bitmask". -/
def get_feature_flags_by_cpucfg (info : CpuidInfo) : Nat :=
  featureTable.foldl
    (fun result e =>
      if readField e.1.bits e.2.1 (info.value e.1) != 0 then result ||| e.2.2.toNat else result)
    0

/-- Modelled from the spec: `VM_Version::initialize()` is declared in the header and
defined in a file that is not among the sources. Spec 4.2: it "reads each required
ConfigurationWord via the external register-read primitive, decodes each into its
record, derives the FeatureBitmask from record fields [...] and sets
`initialized = true`". The register read is the argument `readConfig`; a record
stores the low 32 bits of the word. -/
def initializeFrom (readConfig : Nat → Nat) : VM_Version :=
  let info : CpuidInfo :=
    { cpucfg_info_id0 := ⟨readConfig Cpucfg.Id0.index % 2 ^ 32⟩
      cpucfg_info_id1 := ⟨readConfig Cpucfg.Id1.index % 2 ^ 32⟩
      cpucfg_info_id2 := ⟨readConfig Cpucfg.Id2.index % 2 ^ 32⟩
      cpucfg_info_id3 := ⟨readConfig Cpucfg.Id3.index % 2 ^ 32⟩
      cpucfg_info_id4 := ⟨readConfig Cpucfg.Id4.index % 2 ^ 32⟩
      cpucfg_info_id5 := ⟨readConfig Cpucfg.Id5.index % 2 ^ 32⟩
      cpucfg_info_id6 := ⟨readConfig Cpucfg.Id6.index % 2 ^ 32⟩
      cpucfg_info_id10 := ⟨readConfig Cpucfg.Id10.index % 2 ^ 32⟩
      cpucfg_info_id11 := ⟨readConfig Cpucfg.Id11.index % 2 ^ 32⟩
      cpucfg_info_id12 := ⟨readConfig Cpucfg.Id12.index % 2 ^ 32⟩
      cpucfg_info_id13 := ⟨readConfig Cpucfg.Id13.index % 2 ^ 32⟩
      cpucfg_info_id14 := ⟨readConfig Cpucfg.Id14.index % 2 ^ 32⟩ }
  { _features := get_feature_flags_by_cpucfg info
    _cpu_info_is_initialized := true
    _cpuid_info := info }

/-! ## The query surface -/

/-- First column of `CPU_FEATURE_FLAGS`: the id of the flag, the `id` of its
enumerator `CPU_##id`. -/
def Feature_Flag.id : Feature_Flag → String
  | .CPU_LAM => "LAM"
  | .CPU_UAL => "UAL"
  | .CPU_LSX => "LSX"
  | .CPU_LASX => "LASX"
  | .CPU_COMPLEX => "COMPLEX"
  | .CPU_CRYPTO => "CRYPTO"
  | .CPU_LBT_X86 => "LBT_X86"
  | .CPU_LBT_ARM => "LBT_ARM"
  | .CPU_LBT_MIPS => "LBT_MIPS"
  | .CPU_LA32 => "LA32"
  | .CPU_LA64 => "LA64"
  | .CPU_FP => "FP"
  | .CPU_LLEXC => "LLEXC"
  | .CPU_SCDLY => "SCDLY"
  | .CPU_LLDBAR => "LLDBAR"
  | .CPU_CCDMA => "CCDMA"
  | .CPU_LLSYNC => "LLSYNC"
  | .CPU_TGTSYNC => "TGTSYNC"
  | .CPU_ULSYNC => "ULSYNC"

/-- The feature queries that the header declares, `is_la32()` to
`supports_lbt_mips()`, in the order of their declaration, each under its name. -/
def feature_queries : List (String × (VM_Version → Bool)) :=
  [("is_la32", is_la32), ("is_la64", is_la64), ("supports_crypto", supports_crypto),
   ("supports_lsx", supports_lsx), ("supports_lasx", supports_lasx),
   ("supports_lam", supports_lam), ("supports_llexc", supports_llexc),
   ("supports_scdly", supports_scdly), ("supports_lldbar", supports_lldbar),
   ("supports_ual", supports_ual), ("supports_lbt_x86", supports_lbt_x86),
   ("supports_lbt_arm", supports_lbt_arm), ("supports_lbt_mips", supports_lbt_mips)]

/-- The derived queries that the header declares after them. -/
def derived_queries : List (String × (VM_Version → Bool)) :=
  [("needs_llsync", needs_llsync), ("needs_tgtsync", needs_tgtsync),
   ("needs_ulsync", needs_ulsync)]

/-- The flags for which the header declares a feature query. -/
def queried_flags : List Feature_Flag :=
  [.CPU_LA32, .CPU_LA64, .CPU_CRYPTO, .CPU_LSX, .CPU_LASX, .CPU_LAM, .CPU_LLEXC,
   .CPU_SCDLY, .CPU_LLDBAR, .CPU_UAL, .CPU_LBT_X86, .CPU_LBT_ARM, .CPU_LBT_MIPS]

/-- The flags for which the header declares no feature query. -/
def unqueried_flags : List Feature_Flag :=
  [.CPU_COMPLEX, .CPU_FP, .CPU_CCDMA, .CPU_LLSYNC, .CPU_TGTSYNC, .CPU_ULSYNC]

/-- State with the given feature bitmask, not initialized, all records zero. -/
def withFeatures (f : Nat) : VM_Version :=
  ⟨f, false, CpuidInfo.zero⟩

/-! ## Shape of a bit-field struct -/

/-- The named members of a bit-field struct with the bit range each one takes:
name, offset of its lowest bit, width. -/
def namedRangesFrom (off : Nat) : List BitField → List (String × Nat × Nat)
  | [] => []
  | ⟨none, k⟩ :: fs => namedRangesFrom (off + k) fs
  | ⟨some n, k⟩ :: fs => (n, off, k) :: namedRangesFrom (off + k) fs

/-- Bit ranges of the named members, counted from bit 0. -/
def namedRanges (layout : List BitField) : List (String × Nat × Nat) :=
  namedRangesFrom 0 layout

/-- The padding members of a bit-field struct with the bit range each one takes:
offset of its lowest bit, width. -/
def reservedRangesFrom (off : Nat) : List BitField → List (Nat × Nat)
  | [] => []
  | ⟨none, k⟩ :: fs => (off, k) :: reservedRangesFrom (off + k) fs
  | ⟨some _, k⟩ :: fs => reservedRangesFrom (off + k) fs

/-- Bit ranges of the padding members, counted from bit 0. -/
def reservedRanges (layout : List BitField) : List (Nat × Nat) :=
  reservedRangesFrom 0 layout

/-- The record members that carry the name of a feature flag: record, flag and the
bit offset of the member. -/
def sameNamedFields : List (Cpucfg × Feature_Flag × Nat) :=
  [Cpucfg.Id0, .Id1, .Id2, .Id3, .Id4, .Id5, .Id6, .Id10, .Id11, .Id12, .Id13, .Id14].flatMap
    fun id => CPU_FEATURE_FLAGS.filterMap
      fun f => (offsetOf id.bits f.id).map fun off => (id, f, off)

/-! ## Bit-field reading: general facts -/

theorem fieldOffset_zero (layout : List BitField) : fieldOffset layout 0 = 0 := by
  simp [fieldOffset]

theorem fieldOffset_cons_succ (f : BitField) (fs : List BitField) (i : Nat) :
    fieldOffset (f :: fs) (i + 1) = f.width + fieldOffset fs i := by
  simp [fieldOffset]

theorem extract_getElem? (layout : List BitField) (w i : Nat) :
    (extract layout w)[i]? =
      layout[i]?.map fun f =>
        (f.name, (w >>> fieldOffset layout i) &&& ((1 <<< f.width) - 1)) := by
  induction layout generalizing w i with
  | nil => simp [extract]
  | cons f fs ih =>
    cases i with
    | zero =>
      simp [extract, fieldOffset_zero, Nat.one_shiftLeft]
    | succ i =>
      simp only [extract, List.getElem?_cons_succ, ih, fieldOffset_cons_succ]
      simp [Nat.shiftRight_eq_div_pow, Nat.pow_add, Nat.div_div_eq_div_mul]

theorem extract_eq_specExtract (layout : List BitField) (w : Nat) :
    extract layout w = specExtract layout w := by
  apply List.ext_getElem?
  intro i
  rw [extract_getElem?, specExtract, List.getElem?_mapIdx]

theorem decode_eq_specDecode (layout : List BitField) (w : Nat) :
    decode layout w = specDecode layout w := by
  rw [decode, specDecode, extract_eq_specExtract]

theorem decode_cons_none (k : Nat) (fs : List BitField) (w : Nat) :
    decode (⟨none, k⟩ :: fs) w = decode fs (w / 2 ^ k) := by
  simp [decode, extract]

theorem decode_cons_some (n : String) (k : Nat) (fs : List BitField) (w : Nat) :
    decode (⟨some n, k⟩ :: fs) w = (n, w % 2 ^ k) :: decode fs (w / 2 ^ k) := by
  simp [decode, extract]

theorem readField_nil (name : String) (w : Nat) : readField [] name w = 0 := rfl

theorem readField_cons (f : BitField) (fs : List BitField) (name : String) (w : Nat) :
    readField (f :: fs) name w =
      if f.name = some name then w % 2 ^ f.width else readField fs name (w / 2 ^ f.width) := by
  rcases f with ⟨_ | n, k⟩
  · simp [readField, decode, extract]
  · by_cases h : n = name
    · subst h
      simp [readField, decode, extract, List.lookup]
    · have h2 : (name == n) = false := by simpa using fun e => h e.symm
      simp [readField, decode, extract, List.lookup, h, h2]

theorem maskFrom_testBit_lt (fs : List BitField) (off i : Nat) (h : i < off) :
    (maskFrom off fs).testBit i = false := by
  induction fs generalizing off with
  | nil => simp [maskFrom]
  | cons f fs ih =>
    rcases f with ⟨_ | n, k⟩
    · simpa [maskFrom] using ih (off + k) (by omega)
    · simp only [maskFrom, Nat.testBit_or, Nat.testBit_shiftLeft, ih (off + k) (by omega)]
      simp; omega

theorem testBit_div_shift (w k off i : Nat) (h : off + k ≤ i) :
    ((w / 2 ^ k) <<< (off + k)).testBit i = (w <<< off).testBit i := by
  simp only [Nat.testBit_shiftLeft, ← Nat.shiftRight_eq_div_pow, Nat.testBit_shiftRight]
  have h1 : k + (i - (off + k)) = i - off := by omega
  have h2 : decide (i ≥ off + k) = true := by simpa using h
  have h3 : decide (i ≥ off) = true := by simp; omega
  rw [h1, h2, h3]

theorem encodeFrom_decode (fs : List BitField) (off w : Nat) :
    encodeFrom off fs (decode fs w) = (w <<< off) &&& maskFrom off fs := by
  induction fs generalizing off w with
  | nil => simp [encodeFrom, maskFrom]
  | cons f fs ih =>
    rcases f with ⟨_ | n, k⟩
    · rw [decode_cons_none, encodeFrom, maskFrom, ih]
      apply Nat.eq_of_testBit_eq
      intro i
      rw [Nat.testBit_and, Nat.testBit_and]
      by_cases h : off + k ≤ i
      · rw [testBit_div_shift w k off i h]
      · rw [maskFrom_testBit_lt fs (off + k) i (by omega)]
        simp
    · rw [decode_cons_some, encodeFrom, maskFrom, ih]
      apply Nat.eq_of_testBit_eq
      intro i
      simp only [Nat.testBit_and, Nat.testBit_or]
      by_cases h : off + k ≤ i
      · rw [testBit_div_shift w k off i h]
        simp only [Nat.testBit_shiftLeft, Nat.testBit_mod_two_pow, Nat.one_shiftLeft,
          Nat.testBit_two_pow_sub_one]
        have h1 : decide (i - off < k) = false := by simp; omega
        simp [h1]
      · rw [maskFrom_testBit_lt fs (off + k) i (by omega)]
        simp only [Nat.testBit_shiftLeft, Nat.testBit_mod_two_pow, Nat.one_shiftLeft,
          Nat.testBit_two_pow_sub_one]
        cases decide (i ≥ off) <;> cases decide (i - off < k) <;>
          cases w.testBit (i - off) <;> simp

theorem encode_decode (fs : List BitField) (w : Nat) :
    encode fs (decode fs w) = w &&& declaredMask fs := by
  simpa using encodeFrom_decode fs 0 w

theorem decode_congr_from (fs : List BitField) (off w v : Nat)
    (h : ∀ i, (maskFrom off fs).testBit (off + i) = true → w.testBit i = v.testBit i) :
    decode fs w = decode fs v := by
  induction fs generalizing off w v with
  | nil => rfl
  | cons f fs ih =>
    have tl : decode fs (w / 2 ^ f.width) = decode fs (v / 2 ^ f.width) := by
      apply ih (off + f.width)
      intro i hi
      simp only [← Nat.shiftRight_eq_div_pow, Nat.testBit_shiftRight]
      apply h
      rcases f with ⟨_ | n, k⟩
      · simpa [maskFrom, Nat.add_assoc] using hi
      · simp only [maskFrom, Nat.testBit_or, Bool.or_eq_true]
        right
        simpa [Nat.add_assoc] using hi
    rcases f with ⟨_ | n, k⟩
    · rw [decode_cons_none, decode_cons_none]
      exact tl
    · rw [decode_cons_some, decode_cons_some, tl]
      have hd : w % 2 ^ k = v % 2 ^ k := by
        apply Nat.eq_of_testBit_eq
        intro i
        simp only [Nat.testBit_mod_two_pow]
        by_cases hik : i < k
        · have := h i (by simp [maskFrom, Nat.one_shiftLeft, hik])
          simp [hik, this]
        · simp [hik]
      rw [hd]

theorem decode_and_declaredMask (fs : List BitField) (w : Nat) :
    decode fs (w &&& declaredMask fs) = decode fs w := by
  apply decode_congr_from fs 0
  intro i hi
  have hi2 : (declaredMask fs).testBit i = true := by simpa [declaredMask] using hi
  simp [hi2]

/-! ## Feature queries: general facts -/

theorem and_flag_ne_zero (f b : Nat) : (f &&& 1 <<< b != 0) = f.testBit b := by
  rw [Nat.one_shiftLeft]
  cases hb : f.testBit b with
  | true =>
    have : (f &&& 2 ^ b).testBit b = true := by simp [hb, Nat.testBit_two_pow]
    have hne : f &&& 2 ^ b ≠ 0 := by
      intro h0
      rw [h0] at this
      simp at this
    simpa using hne
  | false =>
    have : f &&& 2 ^ b = 0 := by
      apply Nat.eq_of_testBit_eq
      intro i
      by_cases hi : b = i
      · subst hi
        simp [hb]
      · simp [Nat.testBit_two_pow, hi]
    simp [this]

/-! ## Register decoder -/

/-- C1: decoding is bit-exact. For every word `w` and every record schema
(Id0..Id6, Id10..Id14) the named members read through the bit-field struct are the
values `(w >> offset) & ((1 << width) - 1)`, the offset of a member being the sum of
the widths of the members, named and padding, declared before it. In particular
Id1.UAL is bit 20, Id2.LSX bit 6, Id2.LASX bit 7, Id2.CRYPTO bit 9, Id2.LAM bit 22
and Id3.LLDBAR bit 5. -/
theorem decode_bit_exact (id : Cpucfg) (w : Nat) :
    decode id.bits w = specDecode id.bits w ∧
    (offsetOf LoongArch_Cpucfg_Id1.bits "UAL" = some 20 ∧
      offsetOf LoongArch_Cpucfg_Id2.bits "LSX" = some 6 ∧
      offsetOf LoongArch_Cpucfg_Id2.bits "LASX" = some 7 ∧
      offsetOf LoongArch_Cpucfg_Id2.bits "CRYPTO" = some 9 ∧
      offsetOf LoongArch_Cpucfg_Id2.bits "LAM" = some 22 ∧
      offsetOf LoongArch_Cpucfg_Id3.bits "LLDBAR" = some 5) ∧
    (LoongArch_Cpucfg_Id1.UAL ⟨w⟩ = (w >>> 20) &&& ((1 <<< 1) - 1) ∧
      LoongArch_Cpucfg_Id2.LSX ⟨w⟩ = (w >>> 6) &&& ((1 <<< 1) - 1) ∧
      LoongArch_Cpucfg_Id2.LASX ⟨w⟩ = (w >>> 7) &&& ((1 <<< 1) - 1) ∧
      LoongArch_Cpucfg_Id2.CRYPTO ⟨w⟩ = (w >>> 9) &&& ((1 <<< 1) - 1) ∧
      LoongArch_Cpucfg_Id2.LAM ⟨w⟩ = (w >>> 22) &&& ((1 <<< 1) - 1) ∧
      LoongArch_Cpucfg_Id3.LLDBAR ⟨w⟩ = (w >>> 5) &&& ((1 <<< 1) - 1)) := by
  refine ⟨decode_eq_specDecode _ _, by decide, ?_, ?_, ?_, ?_, ?_, ?_⟩
  · simp [LoongArch_Cpucfg_Id1.UAL, LoongArch_Cpucfg_Id1.bits, readField_cons,
      Nat.div_div_eq_div_mul, Nat.shiftRight_eq_div_pow]
  · simp [LoongArch_Cpucfg_Id2.LSX, LoongArch_Cpucfg_Id2.bits, readField_cons,
      Nat.div_div_eq_div_mul, Nat.shiftRight_eq_div_pow]
  · simp [LoongArch_Cpucfg_Id2.LASX, LoongArch_Cpucfg_Id2.bits, readField_cons,
      Nat.div_div_eq_div_mul, Nat.shiftRight_eq_div_pow]
  · simp [LoongArch_Cpucfg_Id2.CRYPTO, LoongArch_Cpucfg_Id2.bits, readField_cons,
      Nat.div_div_eq_div_mul, Nat.shiftRight_eq_div_pow]
  · simp [LoongArch_Cpucfg_Id2.LAM, LoongArch_Cpucfg_Id2.bits, readField_cons,
      Nat.div_div_eq_div_mul, Nat.shiftRight_eq_div_pow]
  · simp [LoongArch_Cpucfg_Id3.LLDBAR, LoongArch_Cpucfg_Id3.bits, readField_cons,
      Nat.div_div_eq_div_mul, Nat.shiftRight_eq_div_pow]

/-- C2: decode/re-encode round trip. For every record schema and every 32-bit word
`w`, the OR of `field << offset` over the named members of `decode w` is `w`
restricted to the declared bits of the schema, decoding that word again gives the
same record, and for the schemas without reserved bits (Id0, Id4, Id5) the
re-encoded word is `w` itself. -/
theorem decode_encode_roundtrip (id : Cpucfg) (w : Nat) (hw : w < 2 ^ 32) :
    encode id.bits (decode id.bits w) = w &&& declaredMask id.bits ∧
    decode id.bits (encode id.bits (decode id.bits w)) = decode id.bits w ∧
    (id = .Id0 ∨ id = .Id4 ∨ id = .Id5 → encode id.bits (decode id.bits w) = w) ∧
    declaredMask id.bits =
      (match id with
        | .Id0 | .Id4 | .Id5 => 0xFFFFFFFF
        | .Id1 => 0x07FFFFFF
        | .Id2 => 0x007FFFFF
        | .Id3 | .Id10 => 0x0001FFFF
        | .Id6 => 0x00007FFF
        | .Id11 | .Id12 | .Id13 | .Id14 => 0x7FFFFFFF) := by
  refine ⟨encode_decode _ _, ?_, ?_, ?_⟩
  · rw [encode_decode, decode_and_declaredMask]
  · intro h
    rw [encode_decode]
    have hm : declaredMask id.bits = 2 ^ 32 - 1 := by
      rcases h with h | h | h <;> subst h <;> decide
    rw [hm, Nat.and_pow_two_sub_one_eq_mod]
    exact Nat.mod_eq_of_lt hw
  · cases id <;> decide

/-- Witness of C2 at the architecture-attributes record and the word `0x08100004`
(bits 2, 20 and the reserved bit 27 set). -/
theorem decode_encode_roundtrip_witness :
    (0x08100004 : Nat) < 2 ^ 32 ∧
    encode Cpucfg.Id1.bits (decode Cpucfg.Id1.bits 0x08100004) = 0x00100004 := by
  refine ⟨by decide, ?_⟩
  rw [(decode_encode_roundtrip .Id1 0x08100004 (by decide)).1,
    (decode_encode_roundtrip .Id1 0x08100004 (by decide)).2.2.2]
  decide

/-! ## Capability registry -/

/-- C3: for every value of the feature bitmask (and of the rest of the state),
`needs_llsync()` returns true if and only if `supports_lldbar()` returns false. -/
theorem needs_llsync_iff_not_supports_lldbar (s : VM_Version) :
    needs_llsync s = true ↔ supports_lldbar s = false := by
  simp [needs_llsync]

/-- C4: for every prior state, after `clean_cpuFeatures()` each of the thirteen
feature queries returns false. -/
theorem queries_false_after_clean (s : VM_Version) :
    is_la32 (clean_cpuFeatures s) = false ∧
    is_la64 (clean_cpuFeatures s) = false ∧
    supports_crypto (clean_cpuFeatures s) = false ∧
    supports_lsx (clean_cpuFeatures s) = false ∧
    supports_lasx (clean_cpuFeatures s) = false ∧
    supports_lam (clean_cpuFeatures s) = false ∧
    supports_llexc (clean_cpuFeatures s) = false ∧
    supports_scdly (clean_cpuFeatures s) = false ∧
    supports_lldbar (clean_cpuFeatures s) = false ∧
    supports_ual (clean_cpuFeatures s) = false ∧
    supports_lbt_x86 (clean_cpuFeatures s) = false ∧
    supports_lbt_arm (clean_cpuFeatures s) = false ∧
    supports_lbt_mips (clean_cpuFeatures s) = false := by
  simp [clean_cpuFeatures, is_la32, is_la64, supports_crypto, supports_lsx, supports_lasx,
    supports_lam, supports_llexc, supports_scdly, supports_lldbar, supports_ual,
    supports_lbt_x86, supports_lbt_arm, supports_lbt_mips]

/-- C5: every feature query is a total function that reads exactly the bit of its
own flag: on every state it returns bit `b` of `_features` (LA32 13, LA64 14,
CRYPTO 8, LSX 4, LASX 5, LAM 1, LLEXC 16, SCDLY 17, LLDBAR 18, UAL 2, LBT_X86 10,
LBT_ARM 11, LBT_MIPS 12), so two states whose bitmasks agree on that bit get the
same answer whatever else differs. -/
theorem query_reads_own_bit (s t : VM_Version) :
    (is_la32 s = s._features.testBit 13 ∧
      (s._features.testBit 13 = t._features.testBit 13 → is_la32 s = is_la32 t)) ∧
    (is_la64 s = s._features.testBit 14 ∧
      (s._features.testBit 14 = t._features.testBit 14 → is_la64 s = is_la64 t)) ∧
    (supports_crypto s = s._features.testBit 8 ∧
      (s._features.testBit 8 = t._features.testBit 8 →
        supports_crypto s = supports_crypto t)) ∧
    (supports_lsx s = s._features.testBit 4 ∧
      (s._features.testBit 4 = t._features.testBit 4 → supports_lsx s = supports_lsx t)) ∧
    (supports_lasx s = s._features.testBit 5 ∧
      (s._features.testBit 5 = t._features.testBit 5 → supports_lasx s = supports_lasx t)) ∧
    (supports_lam s = s._features.testBit 1 ∧
      (s._features.testBit 1 = t._features.testBit 1 → supports_lam s = supports_lam t)) ∧
    (supports_llexc s = s._features.testBit 16 ∧
      (s._features.testBit 16 = t._features.testBit 16 →
        supports_llexc s = supports_llexc t)) ∧
    (supports_scdly s = s._features.testBit 17 ∧
      (s._features.testBit 17 = t._features.testBit 17 →
        supports_scdly s = supports_scdly t)) ∧
    (supports_lldbar s = s._features.testBit 18 ∧
      (s._features.testBit 18 = t._features.testBit 18 →
        supports_lldbar s = supports_lldbar t)) ∧
    (supports_ual s = s._features.testBit 2 ∧
      (s._features.testBit 2 = t._features.testBit 2 → supports_ual s = supports_ual t)) ∧
    (supports_lbt_x86 s = s._features.testBit 10 ∧
      (s._features.testBit 10 = t._features.testBit 10 →
        supports_lbt_x86 s = supports_lbt_x86 t)) ∧
    (supports_lbt_arm s = s._features.testBit 11 ∧
      (s._features.testBit 11 = t._features.testBit 11 →
        supports_lbt_arm s = supports_lbt_arm t)) ∧
    (supports_lbt_mips s = s._features.testBit 12 ∧
      (s._features.testBit 12 = t._features.testBit 12 →
        supports_lbt_mips s = supports_lbt_mips t)) := by
  have key : ∀ (u : VM_Version) (f : Feature_Flag),
      (u._features &&& f.toNat != 0) = u._features.testBit f.bit :=
    fun u f => and_flag_ne_zero u._features f.bit
  refine ⟨⟨?_, ?_⟩, ⟨?_, ?_⟩, ⟨?_, ?_⟩, ⟨?_, ?_⟩, ⟨?_, ?_⟩, ⟨?_, ?_⟩, ⟨?_, ?_⟩, ⟨?_, ?_⟩,
    ⟨?_, ?_⟩, ⟨?_, ?_⟩, ⟨?_, ?_⟩, ⟨?_, ?_⟩, ⟨?_, ?_⟩⟩
  case refine_1 => exact key s .CPU_LA32
  case refine_2 => intro h; exact (key s .CPU_LA32).trans (h.trans (key t .CPU_LA32).symm)
  case refine_3 => exact key s .CPU_LA64
  case refine_4 => intro h; exact (key s .CPU_LA64).trans (h.trans (key t .CPU_LA64).symm)
  case refine_5 => exact key s .CPU_CRYPTO
  case refine_6 => intro h; exact (key s .CPU_CRYPTO).trans (h.trans (key t .CPU_CRYPTO).symm)
  case refine_7 => exact key s .CPU_LSX
  case refine_8 => intro h; exact (key s .CPU_LSX).trans (h.trans (key t .CPU_LSX).symm)
  case refine_9 => exact key s .CPU_LASX
  case refine_10 => intro h; exact (key s .CPU_LASX).trans (h.trans (key t .CPU_LASX).symm)
  case refine_11 => exact key s .CPU_LAM
  case refine_12 => intro h; exact (key s .CPU_LAM).trans (h.trans (key t .CPU_LAM).symm)
  case refine_13 => exact key s .CPU_LLEXC
  case refine_14 => intro h; exact (key s .CPU_LLEXC).trans (h.trans (key t .CPU_LLEXC).symm)
  case refine_15 => exact key s .CPU_SCDLY
  case refine_16 => intro h; exact (key s .CPU_SCDLY).trans (h.trans (key t .CPU_SCDLY).symm)
  case refine_17 => exact key s .CPU_LLDBAR
  case refine_18 => intro h; exact (key s .CPU_LLDBAR).trans (h.trans (key t .CPU_LLDBAR).symm)
  case refine_19 => exact key s .CPU_UAL
  case refine_20 => intro h; exact (key s .CPU_UAL).trans (h.trans (key t .CPU_UAL).symm)
  case refine_21 => exact key s .CPU_LBT_X86
  case refine_22 => intro h; exact (key s .CPU_LBT_X86).trans (h.trans (key t .CPU_LBT_X86).symm)
  case refine_23 => exact key s .CPU_LBT_ARM
  case refine_24 => intro h; exact (key s .CPU_LBT_ARM).trans (h.trans (key t .CPU_LBT_ARM).symm)
  case refine_25 => exact key s .CPU_LBT_MIPS
  case refine_26 =>
    intro h; exact (key s .CPU_LBT_MIPS).trans (h.trans (key t .CPU_LBT_MIPS).symm)

/-- Witness of C5: two states that differ in every part but agree on bit 2 of the
bitmask answer `supports_ual()` alike. -/
theorem query_reads_own_bit_witness :
    (4 : Nat).testBit 2 = (0x7FFFFF : Nat).testBit 2 ∧
    supports_ual ⟨4, false, CpuidInfo.zero⟩ =
      supports_ual ⟨0x7FFFFF, true, { CpuidInfo.zero with cpucfg_info_id1 := ⟨4⟩ }⟩ :=
  ⟨by decide,
    (query_reads_own_bit ⟨4, false, CpuidInfo.zero⟩
      ⟨0x7FFFFF, true, { CpuidInfo.zero with cpucfg_info_id1 := ⟨4⟩ }⟩).2.2.2.2.2.2.2.2.2.1.2
      (by decide)⟩

/-! ## Feature flags -/

/-- C6: the nine flags above the `must follow Linux HWCAP` marker have the Linux
LoongArch HWCAP values `CPU_LAM = 1<<1`, `CPU_UAL = 1<<2`, `CPU_LSX = 1<<4`,
`CPU_LASX = 1<<5`, `CPU_COMPLEX = 1<<7`, `CPU_CRYPTO = 1<<8`, `CPU_LBT_X86 = 1<<10`,
`CPU_LBT_ARM = 1<<11`, `CPU_LBT_MIPS = 1<<12`, and no flag declared after the marker
(LA32..ULSYNC) has a bit position at or below 12. -/
theorem hwcap_flags_keep_linux_positions :
    (CPU_LAM = 1 <<< 1 ∧ CPU_UAL = 1 <<< 2 ∧ CPU_LSX = 1 <<< 4 ∧ CPU_LASX = 1 <<< 5 ∧
      CPU_COMPLEX = 1 <<< 7 ∧ CPU_CRYPTO = 1 <<< 8 ∧ CPU_LBT_X86 = 1 <<< 10 ∧
      CPU_LBT_ARM = 1 <<< 11 ∧ CPU_LBT_MIPS = 1 <<< 12) ∧
    CPU_FEATURE_FLAGS_HWCAP.map Feature_Flag.toNat =
      [1 <<< 1, 1 <<< 2, 1 <<< 4, 1 <<< 5, 1 <<< 7, 1 <<< 8, 1 <<< 10, 1 <<< 11, 1 <<< 12] ∧
    CPU_FEATURE_FLAGS_REST.map Feature_Flag.bit = [13, 14, 15, 16, 17, 18, 19, 20, 21, 22] ∧
    (∀ f ∈ CPU_FEATURE_FLAGS_REST, 12 < f.bit) ∧
    (∀ f : Feature_Flag, f ∈ CPU_FEATURE_FLAGS_HWCAP ∨ f ∈ CPU_FEATURE_FLAGS_REST) := by
  refine ⟨by decide, by decide, by decide, by decide, ?_⟩
  intro f
  cases f <;> decide

/-- Witness of C6: `CPU_LA32`, the first flag after the marker, sits above bit 12. -/
theorem hwcap_flags_keep_linux_positions_witness :
    Feature_Flag.CPU_LA32 ∈ CPU_FEATURE_FLAGS_REST ∧ 12 < Feature_Flag.CPU_LA32.bit :=
  ⟨by decide, hwcap_flags_keep_linux_positions.2.2.2.1 .CPU_LA32 (by decide)⟩

/-- C7: every value of the `Feature_Flag` enumeration is a single-bit mask `2 ^ b`
with `1 ≤ b ≤ 22` (so `1 << b` fits a 32-bit `int`), two different flags never share
a bit, and the table declares exactly these nineteen flags, each once. -/
theorem feature_flags_single_bit_disjoint (f g : Feature_Flag) :
    (f.toNat = 2 ^ f.bit ∧ 1 ≤ f.bit ∧ f.bit ≤ 22 ∧ f.toNat < 2 ^ 31) ∧
    (f ≠ g → f.bit ≠ g.bit ∧ f.toNat &&& g.toNat = 0) ∧
    (CPU_FEATURE_FLAGS.length = 19 ∧ CPU_FEATURE_FLAGS.Nodup ∧ f ∈ CPU_FEATURE_FLAGS) ∧
    CPU_FEATURE_FLAGS.Pairwise (fun a b => a.toNat &&& b.toNat = 0) := by
  refine ⟨?_, ?_, ⟨by decide, by decide, ?_⟩, by decide⟩
  · cases f <;> decide
  · cases f <;> cases g <;> decide
  · cases f <;> decide

/-- Witness of C7 at the two lowest flags, `CPU_LAM` and `CPU_UAL`. -/
theorem feature_flags_single_bit_disjoint_witness :
    Feature_Flag.CPU_LAM ≠ Feature_Flag.CPU_UAL ∧
    Feature_Flag.CPU_LAM.bit ≠ Feature_Flag.CPU_UAL.bit ∧
    Feature_Flag.CPU_LAM.toNat &&& Feature_Flag.CPU_UAL.toNat = 0 :=
  ⟨by decide, (feature_flags_single_bit_disjoint .CPU_LAM .CPU_UAL).2.1 (by decide)⟩

/-! ## Record offsets -/

/-- C8: the record offsets follow the declaration order of `CpuidInfo` (id0..id6,
id10..id14): the k-th declared record is at byte offset `4 * k`, so
`Loongson_Cpucfg_id0_offset() = 0`, ..., id6 = 24, id10 = 28, ..., id14 = 44; the
offsets are strictly increasing, and each record takes exactly 4 bytes and ends
where the next one begins. -/
theorem record_offsets_contiguous :
    (Loongson_Cpucfg_id0_offset = 0 ∧ Loongson_Cpucfg_id1_offset = 4 ∧
      Loongson_Cpucfg_id2_offset = 8 ∧ Loongson_Cpucfg_id3_offset = 12 ∧
      Loongson_Cpucfg_id4_offset = 16 ∧ Loongson_Cpucfg_id5_offset = 20 ∧
      Loongson_Cpucfg_id6_offset = 24 ∧ Loongson_Cpucfg_id10_offset = 28 ∧
      Loongson_Cpucfg_id11_offset = 32 ∧ Loongson_Cpucfg_id12_offset = 36 ∧
      Loongson_Cpucfg_id13_offset = 40 ∧ Loongson_Cpucfg_id14_offset = 44) ∧
    Loongson_Cpucfg_offsets = (List.range 12).map (fun k => 4 * k) ∧
    Loongson_Cpucfg_offsets.Pairwise (fun a b => a < b) ∧
    (∀ id : Cpucfg, id.sizeof = 4) ∧
    CpuidInfo.members.map (fun m => byte_offset_of CpuidInfo.members m.1 + m.2.sizeof) =
      Loongson_Cpucfg_offsets.tail ++ [48] := by
  refine ⟨by decide, by decide, by decide, ?_, by decide⟩
  intro id
  cases id <;> decide

/-! ## The unaligned-access example -/

/-- Counterexample to C9 as stated: in `LoongArch_Cpucfg_Id1` a word with only bit 2
set decodes to `UAL = 0`, not 1; bit 2 of that word is the member `PGMMU`. -/
theorem ual_not_bit_2_of_id1 :
    LoongArch_Cpucfg_Id1.UAL ⟨0b100⟩ = 0 ∧
    ¬ LoongArch_Cpucfg_Id1.UAL ⟨0b100⟩ = 1 ∧
    LoongArch_Cpucfg_Id1.PGMMU ⟨0b100⟩ = 1 ∧
    offsetOf LoongArch_Cpucfg_Id1.bits "UAL" ≠ some 2 := by
  decide

/-- C9, amended: in `LoongArch_Cpucfg_Id1` the member `UAL` is bit 20 of the raw
word. Decoding a word with only bit 20 set gives `UAL = 1`, and after initialization
from that word (the other words zero) `supports_ual()` is true and
`supports_crypto()` is false; a word with only bit 2 set gives `UAL = 0` and leaves
`supports_ual()` false. Bit 2 is the position of the `CPU_UAL` flag in the feature
bitmask. -/
theorem ual_is_bit_20_of_id1 :
    offsetOf LoongArch_Cpucfg_Id1.bits "UAL" = some 20 ∧
    (∀ w : Nat, LoongArch_Cpucfg_Id1.UAL ⟨w⟩ = (w >>> 20) &&& 1) ∧
    LoongArch_Cpucfg_Id1.UAL ⟨1 <<< 20⟩ = 1 ∧
    supports_ual (initializeFrom fun i => if i = 1 then 1 <<< 20 else 0) = true ∧
    supports_crypto (initializeFrom fun i => if i = 1 then 1 <<< 20 else 0) = false ∧
    LoongArch_Cpucfg_Id1.UAL ⟨1 <<< 2⟩ = 0 ∧
    supports_ual (initializeFrom fun i => if i = 1 then 1 <<< 2 else 0) = false ∧
    CPU_UAL = 1 <<< 2 := by
  refine ⟨by decide, ?_, by decide, by decide, by decide, by decide, by decide, by decide⟩
  intro w
  simp [LoongArch_Cpucfg_Id1.UAL, LoongArch_Cpucfg_Id1.bits, readField_cons,
    Nat.div_div_eq_div_mul, Nat.shiftRight_eq_div_pow]

/-! ## Frame of `clean_cpuFeatures` -/

/-- C10: `clean_cpuFeatures()` changes only the feature bitmask. For every state the
`_cpuid_info` block, each of its twelve records, and `_cpu_info_is_initialized`
(hence `cpu_info_is_initialized()`) are the same after the call as before it, while
`_features` becomes zero. -/
theorem clean_cpuFeatures_frame (s : VM_Version) :
    (clean_cpuFeatures s)._cpuid_info = s._cpuid_info ∧
    ((clean_cpuFeatures s)._cpuid_info.cpucfg_info_id0 = s._cpuid_info.cpucfg_info_id0 ∧
      (clean_cpuFeatures s)._cpuid_info.cpucfg_info_id1 = s._cpuid_info.cpucfg_info_id1 ∧
      (clean_cpuFeatures s)._cpuid_info.cpucfg_info_id2 = s._cpuid_info.cpucfg_info_id2 ∧
      (clean_cpuFeatures s)._cpuid_info.cpucfg_info_id3 = s._cpuid_info.cpucfg_info_id3 ∧
      (clean_cpuFeatures s)._cpuid_info.cpucfg_info_id4 = s._cpuid_info.cpucfg_info_id4 ∧
      (clean_cpuFeatures s)._cpuid_info.cpucfg_info_id5 = s._cpuid_info.cpucfg_info_id5 ∧
      (clean_cpuFeatures s)._cpuid_info.cpucfg_info_id6 = s._cpuid_info.cpucfg_info_id6 ∧
      (clean_cpuFeatures s)._cpuid_info.cpucfg_info_id10 = s._cpuid_info.cpucfg_info_id10 ∧
      (clean_cpuFeatures s)._cpuid_info.cpucfg_info_id11 = s._cpuid_info.cpucfg_info_id11 ∧
      (clean_cpuFeatures s)._cpuid_info.cpucfg_info_id12 = s._cpuid_info.cpucfg_info_id12 ∧
      (clean_cpuFeatures s)._cpuid_info.cpucfg_info_id13 = s._cpuid_info.cpucfg_info_id13 ∧
      (clean_cpuFeatures s)._cpuid_info.cpucfg_info_id14 = s._cpuid_info.cpucfg_info_id14) ∧
    (clean_cpuFeatures s)._cpu_info_is_initialized = s._cpu_info_is_initialized ∧
    cpu_info_is_initialized (clean_cpuFeatures s) = cpu_info_is_initialized s ∧
    (clean_cpuFeatures s)._features = 0 ∧
    clean_cpuFeatures s = ⟨0, s._cpu_info_is_initialized, s._cpuid_info⟩ := by
  simp [clean_cpuFeatures, cpu_info_is_initialized]

/-! ## The query surface -/

/-- Counterexample to C11 as stated: `CPU_COMPLEX` is a flag of the enumeration, and
none of the feature or derived queries of the header returns bit 7 of the feature
bitmask. -/
theorem no_query_for_complex :
    Feature_Flag.CPU_COMPLEX ∈ CPU_FEATURE_FLAGS ∧
    ¬ ∃ q ∈ feature_queries ++ derived_queries,
        ∀ s : VM_Version, q.2 s = s._features.testBit Feature_Flag.CPU_COMPLEX.bit := by
  refine ⟨by decide, ?_⟩
  rintro ⟨q, hq, h⟩
  have h1 := h (withFeatures (1 <<< 7))
  have h0 := h (withFeatures 0)
  simp only [feature_queries, derived_queries, List.cons_append, List.nil_append,
    List.mem_cons, List.mem_singleton] at hq
  rcases hq with rfl | rfl | rfl | rfl | rfl | rfl | rfl | rfl | rfl | rfl | rfl | rfl | rfl |
    rfl | rfl | rfl | hq
  all_goals first
    | exact absurd h1 (by decide)
    | exact absurd h0 (by decide)
    | exact absurd hq (List.not_mem_nil _)

/-- C11, amended: thirteen of the nineteen flags (LA32, LA64, CRYPTO, LSX, LASX, LAM,
LLEXC, SCDLY, LLDBAR, UAL, LBT_X86, LBT_ARM, LBT_MIPS) have a named query in
`VM_Version`, one each, that returns exactly the bit of that flag in the feature
bitmask; for COMPLEX, FP, CCDMA, LLSYNC, TGTSYNC and ULSYNC the header has no query
that returns the bit of the flag; and there are three derived queries,
`needs_llsync`, `needs_tgtsync` and `needs_ulsync`. -/
theorem query_surface :
    List.Forall₂ (fun q f => ∀ s : VM_Version, q.2 s = s._features.testBit f.bit)
      feature_queries queried_flags ∧
    (∀ f ∈ queried_flags, ∃ q ∈ feature_queries,
      ∀ s : VM_Version, q.2 s = s._features.testBit f.bit) ∧
    (∀ f ∈ unqueried_flags, ¬ ∃ q ∈ feature_queries ++ derived_queries,
      ∀ s : VM_Version, q.2 s = s._features.testBit f.bit) ∧
    (∀ f : Feature_Flag, f ∈ queried_flags ∨ f ∈ unqueried_flags) ∧
    (queried_flags.Nodup ∧ queried_flags.length = 13 ∧ unqueried_flags.length = 6 ∧
      feature_queries.length = 13 ∧ (feature_queries.map Prod.fst).Nodup) ∧
    derived_queries.map Prod.fst = ["needs_llsync", "needs_tgtsync", "needs_ulsync"] := by
  have key : ∀ (f : Feature_Flag) (s : VM_Version),
      (s._features &&& f.toNat != 0) = s._features.testBit f.bit :=
    fun f s => and_flag_ne_zero s._features f.bit
  refine ⟨?_, ?_, ?_, ?_, by decide, by decide⟩
  · unfold feature_queries queried_flags
    repeat first
      | exact List.Forall₂.nil
      | refine List.Forall₂.cons (key _) ?_
  · intro f hf
    simp only [queried_flags, List.mem_cons, List.not_mem_nil, or_false] at hf
    rcases hf with rfl | rfl | rfl | rfl | rfl | rfl | rfl | rfl | rfl | rfl | rfl | rfl | rfl
    · exact ⟨("is_la32", is_la32), by simp [feature_queries], key _⟩
    · exact ⟨("is_la64", is_la64), by simp [feature_queries], key _⟩
    · exact ⟨("supports_crypto", supports_crypto), by simp [feature_queries], key _⟩
    · exact ⟨("supports_lsx", supports_lsx), by simp [feature_queries], key _⟩
    · exact ⟨("supports_lasx", supports_lasx), by simp [feature_queries], key _⟩
    · exact ⟨("supports_lam", supports_lam), by simp [feature_queries], key _⟩
    · exact ⟨("supports_llexc", supports_llexc), by simp [feature_queries], key _⟩
    · exact ⟨("supports_scdly", supports_scdly), by simp [feature_queries], key _⟩
    · exact ⟨("supports_lldbar", supports_lldbar), by simp [feature_queries], key _⟩
    · exact ⟨("supports_ual", supports_ual), by simp [feature_queries], key _⟩
    · exact ⟨("supports_lbt_x86", supports_lbt_x86), by simp [feature_queries], key _⟩
    · exact ⟨("supports_lbt_arm", supports_lbt_arm), by simp [feature_queries], key _⟩
    · exact ⟨("supports_lbt_mips", supports_lbt_mips), by simp [feature_queries], key _⟩
  · rintro f hf ⟨q, hq, h⟩
    have h1 := h (withFeatures f.toNat)
    have h0 := h (withFeatures 0)
    simp only [unqueried_flags, List.mem_cons, List.not_mem_nil, or_false] at hf
    simp only [feature_queries, derived_queries, List.cons_append, List.nil_append,
      List.mem_cons, List.not_mem_nil, or_false] at hq
    rcases hf with rfl | rfl | rfl | rfl | rfl | rfl <;>
      rcases hq with rfl | rfl | rfl | rfl | rfl | rfl | rfl | rfl | rfl | rfl | rfl | rfl |
        rfl | rfl | rfl | rfl <;>
      first
        | exact absurd h1 (by decide)
        | exact absurd h0 (by decide)
  · intro f
    cases f <;> decide

/-- Witness of C11 (amended) at `CPU_LSX`: `supports_lsx` is the query that returns
bit 4. -/
theorem query_surface_witness :
    Feature_Flag.CPU_LSX ∈ queried_flags ∧
    ∃ q ∈ feature_queries,
      ∀ s : VM_Version, q.2 s = s._features.testBit Feature_Flag.CPU_LSX.bit :=
  ⟨by decide, query_surface.2.1 .CPU_LSX (by decide)⟩

/-- C12: `needs_tgtsync()` and `needs_ulsync()` return true for every state, whatever
the feature bitmask (the TGTSYNC and ULSYNC bits included), whatever the decoded
records, before and after `clean_cpuFeatures()`. -/
theorem needs_tgtsync_ulsync_always (s : VM_Version) (f : Nat) (b : Bool)
    (info : CpuidInfo) :
    (needs_tgtsync s = true ∧ needs_ulsync s = true) ∧
    (needs_tgtsync ⟨f, b, info⟩ = true ∧ needs_ulsync ⟨f, b, info⟩ = true) ∧
    (needs_tgtsync ⟨f ||| CPU_TGTSYNC ||| CPU_ULSYNC, b, info⟩ = true ∧
      needs_ulsync ⟨f ||| CPU_TGTSYNC ||| CPU_ULSYNC, b, info⟩ = true) ∧
    (needs_tgtsync (clean_cpuFeatures s) = true ∧
      needs_ulsync (clean_cpuFeatures s) = true) := by
  simp [needs_tgtsync, needs_ulsync]

/-- C14: `clean_cpuFeatures()` is idempotent: on every state, applying it twice gives
exactly the state that applying it once gives. -/
theorem clean_cpuFeatures_idempotent (s : VM_Version) :
    clean_cpuFeatures (clean_cpuFeatures s) = clean_cpuFeatures s := by
  simp [clean_cpuFeatures]

/-! ## Initialization from zero words -/

/-- C13: when all configuration words are zero the feature bitmask that
initialization produces is empty, every feature query (`is_la32` ..
`supports_lbt_mips`) returns false and `needs_llsync()` returns true; the same
answers hold on every state whose feature bitmask is empty. -/
theorem zero_words_no_features :
    (initializeFrom fun _ => 0)._features = 0 ∧
    ((∀ q ∈ feature_queries, q.2 (initializeFrom fun _ => 0) = false) ∧
      needs_llsync (initializeFrom fun _ => 0) = true) ∧
    (∀ s : VM_Version, s._features = 0 →
      (is_la32 s = false ∧ is_la64 s = false ∧ supports_crypto s = false ∧
        supports_lsx s = false ∧ supports_lasx s = false ∧ supports_lam s = false ∧
        supports_llexc s = false ∧ supports_scdly s = false ∧ supports_lldbar s = false ∧
        supports_ual s = false ∧ supports_lbt_x86 s = false ∧ supports_lbt_arm s = false ∧
        supports_lbt_mips s = false) ∧
      needs_llsync s = true) := by
  refine ⟨by decide, by decide, ?_⟩
  intro s hs
  simp [needs_llsync, is_la32, is_la64, supports_crypto, supports_lsx, supports_lasx,
    supports_lam, supports_llexc, supports_scdly, supports_lldbar, supports_ual,
    supports_lbt_x86, supports_lbt_arm, supports_lbt_mips, hs]

/-- Witness of C13 at the state that initialization from zero words produces. -/
theorem zero_words_no_features_witness :
    (initializeFrom fun _ => 0)._features = 0 ∧
    supports_ual (initializeFrom fun _ => 0) = false ∧
    needs_llsync (initializeFrom fun _ => 0) = true :=
  ⟨by decide,
    (zero_words_no_features.2.2 (initializeFrom fun _ => 0) (by decide)).1.2.2.2.2.2.2.2.2.2.1,
    (zero_words_no_features.2.2 (initializeFrom fun _ => 0) (by decide)).2⟩

/-! ## Shape of the schemas -/

/-- Agreement of two words on the declared bits of a bit-field struct, as a masked
equality and bit by bit. -/
theorem and_mask_eq_iff (m w v : Nat) :
    w &&& m = v &&& m ↔ ∀ i, m.testBit i = true → w.testBit i = v.testBit i := by
  constructor
  · intro h i hi
    have := congrArg (fun x => x.testBit i) h
    simpa [hi] using this
  · intro h
    apply Nat.eq_of_testBit_eq
    intro i
    simp only [Nat.testBit_and]
    cases hm : m.testBit i with
    | true => rw [h i hm]
    | false => simp

/-- Two words decode to the same named members exactly when they agree on the
declared bits. -/
theorem decode_eq_iff (fs : List BitField) (w v : Nat) :
    decode fs w = decode fs v ↔ w &&& declaredMask fs = v &&& declaredMask fs := by
  constructor
  · intro h
    rw [← encode_decode, ← encode_decode, h]
  · intro h
    rw [← decode_and_declaredMask fs w, ← decode_and_declaredMask fs v, h]

/-- C15: schema well-formedness. In every record schema (Id0..Id6, Id10..Id14) the
declared widths, named and reserved together, sum to exactly 32; every named member
has a non-empty bit range inside bits 0..31, the ranges of two distinct named
members are disjoint and no name occurs twice; the reserved bits are the topmost
bits of the word (Id1: 27..31, Id2: 23..31, Id3: 17..31, Id6: 15..31, Id10: 17..31,
Id11..Id14: bit 31; none in Id0, Id4, Id5). -/
theorem schemas_well_formed (id : Cpucfg) :
    (id.bits.map BitField.width).sum = 32 ∧
    (∀ r ∈ namedRanges id.bits, 0 < r.2.2 ∧ r.2.1 + r.2.2 ≤ 32) ∧
    (namedRanges id.bits).Pairwise
      (fun a b => a.2.1 + a.2.2 ≤ b.2.1 ∨ b.2.1 + b.2.2 ≤ a.2.1) ∧
    ((namedRanges id.bits).map Prod.fst).Nodup ∧
    (namedRanges id.bits).map (fun r => (r.1, some r.2.1)) =
      (namedRanges id.bits).map (fun r => (r.1, offsetOf id.bits r.1)) ∧
    reservedRanges id.bits =
      (match id with
        | .Id0 | .Id4 | .Id5 => []
        | .Id1 => [(27, 5)]
        | .Id2 => [(23, 9)]
        | .Id3 | .Id10 => [(17, 15)]
        | .Id6 => [(15, 17)]
        | .Id11 | .Id12 | .Id13 | .Id14 => [(31, 1)]) ∧
    (∀ r ∈ reservedRanges id.bits, r.1 + r.2 = 32) := by
  cases id <;> decide

/-- Witness of C15 at the member `UAL` of the architecture-attributes record: one
bit, at offset 20. -/
theorem schemas_well_formed_witness :
    ("UAL", 20, 1) ∈ namedRanges Cpucfg.Id1.bits ∧ 0 < 1 ∧ 20 + 1 ≤ 32 :=
  ⟨by decide, (schemas_well_formed .Id1).2.1 ("UAL", 20, 1) (by decide)⟩

/-- C16: reserved bits are dropped and nothing else is. For every record schema, two
words decode to records with equal named members if and only if they agree on every
declared (non-reserved) bit of that schema; in particular a change confined to
undeclared bits never shows in the record. -/
theorem decode_eq_iff_declared_bits (id : Cpucfg) (w v : Nat) :
    (decode id.bits w = decode id.bits v ↔
      w &&& declaredMask id.bits = v &&& declaredMask id.bits) ∧
    (decode id.bits w = decode id.bits v ↔
      ∀ i, (declaredMask id.bits).testBit i = true → w.testBit i = v.testBit i) ∧
    ((∀ i, (declaredMask id.bits).testBit i = true → w.testBit i = v.testBit i) →
      decode id.bits w = decode id.bits v) ∧
    (decode id.bits w = decode id.bits v →
      ∀ i, (declaredMask id.bits).testBit i = true → w.testBit i = v.testBit i) := by
  have h := (decode_eq_iff id.bits w v).trans (and_mask_eq_iff (declaredMask id.bits) w v)
  exact ⟨decode_eq_iff id.bits w v, h, h.2, h.1⟩

/-- Witness of C16 at the architecture-attributes record: `0x08100004` and
`0x00100004` differ only in the reserved bit 27 and decode alike. -/
theorem decode_eq_iff_declared_bits_witness :
    (0x08100004 &&& declaredMask Cpucfg.Id1.bits =
      0x00100004 &&& declaredMask Cpucfg.Id1.bits) ∧
    decode Cpucfg.Id1.bits 0x08100004 = decode Cpucfg.Id1.bits 0x00100004 :=
  ⟨by decide, (decode_eq_iff_declared_bits .Id1 0x08100004 0x00100004).1.2 (by decide)⟩

/-! ## What the derived queries read -/

/-- Flipping bit `b` of a word leaves every other bit as it is. -/
theorem testBit_xor_two_pow_of_ne (f b i : Nat) (h : b ≠ i) :
    (f ^^^ 2 ^ b).testBit i = f.testBit i := by
  simp [Nat.testBit_xor, Nat.testBit_two_pow, h]

/-- The query `needs_llsync()` is the negation of bit 18 of the feature bitmask. -/
theorem needs_llsync_eq (s : VM_Version) :
    needs_llsync s = !s._features.testBit 18 := by
  have h : supports_lldbar s = s._features.testBit 18 := and_flag_ne_zero s._features 18
  simp [needs_llsync, h]

/-- C17: `needs_llsync()` depends on the feature bitmask only through the LLDBAR bit
(bit 18): two states whose bitmasks agree on bit 18 get the same answer; setting,
clearing or flipping the `CPU_LLSYNC` flag (bit 20) never changes it; and none of
the derived queries `needs_llsync`, `needs_tgtsync`, `needs_ulsync` changes when the
LLSYNC, TGTSYNC or ULSYNC bit (20, 21, 22) is flipped. -/
theorem needs_llsync_reads_only_lldbar (s t : VM_Version)
    (h : s._features.testBit 18 = t._features.testBit 18) :
    needs_llsync s = needs_llsync t ∧
    (needs_llsync { s with _features := s._features ||| CPU_LLSYNC } = needs_llsync s ∧
      needs_llsync { s with _features := s._features &&& (2 ^ 64 - 1 - CPU_LLSYNC) } =
        needs_llsync s ∧
      needs_llsync { s with _features := s._features ^^^ CPU_LLSYNC } = needs_llsync s) ∧
    (∀ q ∈ derived_queries, ∀ f ∈ [Feature_Flag.CPU_LLSYNC, .CPU_TGTSYNC, .CPU_ULSYNC],
      q.2 { s with _features := s._features ^^^ f.toNat } = q.2 s) := by
  refine ⟨?_, ⟨?_, ?_, ?_⟩, ?_⟩
  · rw [needs_llsync_eq, needs_llsync_eq, h]
  · rw [needs_llsync_eq, needs_llsync_eq]
    have : (CPU_LLSYNC).testBit 18 = false := by decide
    simp [Nat.testBit_or, this]
  · rw [needs_llsync_eq, needs_llsync_eq]
    have : (2 ^ 64 - 1 - CPU_LLSYNC).testBit 18 = true := by decide
    show (!(s._features &&& (2 ^ 64 - 1 - CPU_LLSYNC)).testBit 18) = !s._features.testBit 18
    rw [Nat.testBit_and, this, Bool.and_true]
  · rw [needs_llsync_eq, needs_llsync_eq]
    have : (CPU_LLSYNC).testBit 18 = false := by decide
    simp [Nat.testBit_xor, this]
  · intro q hq f hf
    simp only [derived_queries, List.mem_cons, List.not_mem_nil, or_false] at hq hf
    rcases hq with rfl | rfl | rfl
    · show needs_llsync _ = needs_llsync _
      rw [needs_llsync_eq, needs_llsync_eq]
      rcases hf with rfl | rfl | rfl
      · exact congrArg _ (testBit_xor_two_pow_of_ne _ 20 18 (by decide))
      · exact congrArg _ (testBit_xor_two_pow_of_ne _ 21 18 (by decide))
      · exact congrArg _ (testBit_xor_two_pow_of_ne _ 22 18 (by decide))
    · rfl
    · rfl

/-- Witness of C17: a bare state with only LLDBAR set and an initialized state with
LLDBAR, LLSYNC, TGTSYNC and ULSYNC set answer `needs_llsync()` alike. -/
theorem needs_llsync_reads_only_lldbar_witness :
    (0x40000 : Nat).testBit 18 = (0x740000 : Nat).testBit 18 ∧
    needs_llsync (withFeatures 0x40000) = needs_llsync ⟨0x740000, true, CpuidInfo.zero⟩ :=
  ⟨by decide,
    (needs_llsync_reads_only_lldbar (withFeatures 0x40000) ⟨0x740000, true, CpuidInfo.zero⟩
      (by decide)).1⟩

/-! ## Flag bits against record bits -/

/-- C18: the feature bitmask is not a bit-copy of a configuration word. The flags
with a record member of the same name are UAL in Id1; LAM, LSX, LASX, COMPLEX,
CRYPTO, LBT_X86, LBT_ARM, LBT_MIPS in Id2; LLEXC, SCDLY, LLDBAR, CCDMA in Id3; and
for each of them the bit of the flag in the bitmask differs from the bit offset of
the member in its record (UAL 2 against 20, LSX 4 against 6, LAM 1 against 22,
LLDBAR 18 against 5, ...). -/
theorem flag_bits_differ_from_field_offsets (id : Cpucfg) (f : Feature_Flag) :
    offsetOf id.bits f.id ≠ some f.bit ∧
    sameNamedFields =
      [(.Id1, .CPU_UAL, 20),
       (.Id2, .CPU_LAM, 22), (.Id2, .CPU_LSX, 6), (.Id2, .CPU_LASX, 7),
       (.Id2, .CPU_COMPLEX, 8), (.Id2, .CPU_CRYPTO, 9), (.Id2, .CPU_LBT_X86, 18),
       (.Id2, .CPU_LBT_ARM, 19), (.Id2, .CPU_LBT_MIPS, 20),
       (.Id3, .CPU_LLEXC, 3), (.Id3, .CPU_SCDLY, 4), (.Id3, .CPU_LLDBAR, 5),
       (.Id3, .CPU_CCDMA, 0)] ∧
    (∀ e ∈ sameNamedFields, e.2.2 ≠ e.2.1.bit) ∧
    sameNamedFields.map (fun e => (e.2.1.bit, e.2.2)) =
      [(2, 20), (1, 22), (4, 6), (5, 7), (7, 8), (8, 9), (10, 18), (11, 19), (12, 20),
       (16, 3), (17, 4), (18, 5), (19, 0)] := by
  refine ⟨?_, by decide, by decide, by decide⟩
  cases id <;> cases f <;> decide

/-- Witness of C18 at the LLDBAR member of Id3: offset 5 in the record, bit 18 in
the bitmask. -/
theorem flag_bits_differ_from_field_offsets_witness :
    (Cpucfg.Id3, Feature_Flag.CPU_LLDBAR, 5) ∈ sameNamedFields ∧
    (5 : Nat) ≠ Feature_Flag.CPU_LLDBAR.bit :=
  ⟨by decide,
    (flag_bits_differ_from_field_offsets .Id3 .CPU_LLDBAR).2.2.1
      (.Id3, .CPU_LLDBAR, 5) (by decide)⟩

end VM_Version
